import Mathlib

set_option maxHeartbeats 1000000

namespace Bareos

/- ===================================================================
   Volume store (dedup backend).

   The volume type itself lives in dedup/ headers of the repository,
   outside the two given source files; its operations are modelled here
   from the specification (spec.md section 4.1).  The two source files
   (scatter, gather, the device facade) are embedded from the source.
   =================================================================== -/

/-- Modelled from the spec: the location returned by append_data, a
(file_index, begin) pair addressing a payload inside the data segments.
The roll threshold for data-segment files is implementation defined; the
model keeps a single data segment, so file_index is always 0. -/
structure Location where
  file_index : Nat
  begin_pos : Nat
deriving DecidableEq, Repr

/-- Modelled from the spec: a fixed-size record descriptor of the records
segment (dedup record_header): the copied record-header bytes, the payload
begin offset, the stored payload length, and the data-segment file index. -/
structure record_header where
  BareosHeader : List Nat
  start : Nat
  size : Nat
  file_index : Nat
deriving DecidableEq, Repr

/-- Modelled from the spec: a fixed-size block descriptor of the blocks
segment (dedup block_header): the copied block-header bytes plus
(start_record_index, record_count) pointing into the records segment. -/
structure block_header where
  BareosHeader : List Nat
  start : Nat
  count : Nat
deriving DecidableEq, Repr

/-- Modelled from the spec: the volume store (spec.md section 4.1).  A named
directory with permissions, a configured block size, three append-only
segment streams (data bytes, record descriptors, block descriptors) and an
ok flag (any I/O error marks the volume not-ok and mutating calls then
fail fast; the model has no spontaneous I/O errors, so mutations fail
exactly when the volume is not ok). -/
structure volume where
  name : String
  perm : Int
  blocksize : Nat
  data : List Nat
  records : List record_header
  blocks : List block_header
  ok : Bool
deriving DecidableEq, Repr

/-- Modelled from the spec: size() is the number of block descriptors; the
blocks segment is the authoritative length of the volume. -/
def volume.size (v : volume) : Nat := v.blocks.length

/-- Modelled from the spec: is_ok(). -/
def volume.is_ok (v : volume) : Bool := v.ok

/-- Modelled from the spec: append_data appends the payload bytes to the
active data segment and returns their location.  The block and record
headers are passed along as in the source signature but do not influence
the stored bytes. -/
def volume.append_data (v : volume) (_blk _rec : List Nat) (payload : List Nat) :
    Option (Location × volume) :=
  if v.ok then
    some ({ file_index := 0, begin_pos := v.data.length },
          { v with data := v.data ++ payload })
  else none

/-- Modelled from the spec: append_records appends count record descriptors
contiguously and returns the first index. -/
def volume.append_records (v : volume) (rs : List record_header) :
    Option (Nat × volume) :=
  if v.ok then some (v.records.length, { v with records := v.records ++ rs })
  else none

/-- Modelled from the spec: append_block appends one block descriptor. -/
def volume.append_block (v : volume) (b : block_header) : Option volume :=
  if v.ok then some { v with blocks := v.blocks ++ [b] } else none

/-- Modelled from the spec: read_block is a random read by block index,
returning Err for an index at or past size(). -/
def volume.read_block (v : volume) (i : Nat) : Option block_header :=
  v.blocks.get? i

/-- Modelled from the spec: read_records reads count consecutive record
descriptors starting at start; Err when the range is not fully present. -/
def volume.read_records (v : volume) (start count : Nat) :
    Option (List record_header) :=
  if start + count ≤ v.records.length then
    some ((v.records.drop start).take count)
  else none

/-- Modelled from the spec: read_data is a random read from a data segment.
The model has the single data segment 0. -/
def volume.read_data (v : volume) (file_index start size : Nat) :
    Option (List Nat) :=
  if file_index = 0 ∧ start + size ≤ v.data.length then
    some ((v.data.drop start).take size)
  else none

/-- Modelled from the spec: reset truncates all three segments to length
zero, preserving the volume configuration (name, permissions, block size). -/
def volume.reset (v : volume) : volume :=
  { v with data := [], records := [], blocks := [] }

/-- Modelled from the spec: creating a volume in CREATE_READ_WRITE mode
initializes the three segments empty and writes the configuration
(permissions and block size); creation succeeds in the model. -/
def mkVolume (path : String) (perm : Int) (bs : Nat) : volume :=
  { name := path, perm := perm, blocksize := bs,
    data := [], records := [], blocks := [], ok := true }

/- ===================================================================
   Wire format.

   bareos_block_header and bareos_record_header are fixed-size C structs
   declared in dedup/ headers outside the given source files.  The codec
   in the source only uses sizeof of each struct and the fields BlockSize
   and DataSize extracted by memcpy, so the model abstracts the layout.
   =================================================================== -/

/-- Modelled from the spec: the wire block and record header formats.
bh_size and rh_size are the struct sizes (sizeof, hence positive);
decBlockSize and decDataSize extract the declared BlockSize and DataSize
from the copied header bytes. -/
structure WireFormat where
  bh_size : Nat
  rh_size : Nat
  bh_pos : 0 < bh_size
  rh_pos : 0 < rh_size
  decBlockSize : List Nat → Nat
  decDataSize : List Nat → Nat

/- ===================================================================
   Scatter (write codec), from
   src/core/src/stored/backends/dedup_file_device.cc, function scatter.
   The record-walking while loop is embedded with explicit fuel; scatter
   hands it fuel bsize + 1, which exceeds the possible iteration count
   since every iteration advances the position by at least rh_size >= 1.
   =================================================================== -/

/-- The record-walking loop of scatter (source lines 238-262): at each
position copy the record header, truncate the declared payload at the end
of the block, append the payload bytes to the volume and accumulate a
record descriptor. -/
def scatterLoop (W : WireFormat) (data : List Nat) (bsize : Nat) :
    Nat → Nat → volume → List record_header →
    Option (List record_header) × volume
  | 0, _, vol, _ => (none, vol)
  | fuel + 1, pos, vol, acc =>
    if pos = bsize then (some acc.reverse, vol)
    else if bsize < pos + W.rh_size then (none, vol)
    else
      let hdr := (data.drop pos).take W.rh_size
      let pstart := pos + W.rh_size
      let pend := min (pstart + W.decDataSize hdr) bsize
      let payload := (data.drop pstart).take (pend - pstart)
      match vol.append_data (data.take W.bh_size) hdr payload with
      | none => (none, vol)
      | some (loc, vol1) =>
        scatterLoop W data bsize fuel pend vol1
          ({ BareosHeader := hdr, start := loc.begin_pos,
             size := pend - pstart, file_index := loc.file_index } :: acc)

/-- scatter (source lines 203-274): split one wire block into per-record
payloads appended to the volume, then append the record descriptors, then
one block descriptor; returns the bytes consumed (BlockSize) on success.
An error result (-1 in the source) is none; the returned volume carries
any appends that happened before the failure. -/
def scatter (W : WireFormat) (vol : volume) (data : List Nat) :
    Option Nat × volume :=
  if 4294967295 < data.length then (none, vol)
  else if data.length < W.bh_size then (none, vol)
  else
    let bhdr := data.take W.bh_size
    let bsize := W.decBlockSize bhdr
    if data.length < bsize then (none, vol)
    else
      match scatterLoop W data bsize (bsize + 1) W.bh_size vol [] with
      | (none, vol1) => (none, vol1)
      | (some recs, vol1) =>
        match vol1.append_records recs with
        | none => (none, vol1)
        | some (start, vol2) =>
          match vol2.append_block
              { BareosHeader := bhdr, start := start, count := recs.length } with
          | none => (none, vol2)
          | some vol3 => (some bsize, vol3)

/- ===================================================================
   Gather (read codec), from the same source file, function gather.
   The destination buffer is modelled as the list of bytes written so far
   plus a fixed capacity (the write_buffer of dedup/util, which is outside
   the given source files, is modelled from the spec: write appends when
   the bytes fit, reserve fails when the requested span does not fit).
   =================================================================== -/

/-- A default-constructed (value-initialized) record descriptor: the
records vector of gather is value-initialized before read_records is
called on it. -/
def defaultRec (W : WireFormat) : record_header :=
  { BareosHeader := List.replicate W.rh_size 0, start := 0, size := 0,
    file_index := 0 }

/-- Modelled from the spec: write_buffer.write appends the bytes when they
fit within the capacity. -/
def wbWrite (cap : Nat) (out bytes : List Nat) : Option (List Nat) :=
  if out.length + bytes.length ≤ cap then some (out ++ bytes) else none

/-- The per-record loop of gather (source lines 325-332): write the record
header bytes, then read the payload from the data segment into reserved
space. -/
def gatherLoop (vol : volume) (cap : Nat) :
    List record_header → List Nat → Option (List Nat)
  | [], out => some out
  | r :: rest, out =>
    match wbWrite cap out r.BareosHeader with
    | none => none
    | some out1 =>
      if cap < out1.length + r.size then none
      else
        match vol.read_data r.file_index r.start r.size with
        | none => none
        | some payload => gatherLoop vol cap rest (out1 ++ payload)

/-- gather (source lines 307-335): read the block descriptor, check the
destination capacity against the declared BlockSize, write the block
header, read the record descriptors (the source ignores the result of
read_records, leaving the value-initialized vector on failure), then write
each record header and payload.  Returns the written bytes; none is the
-1 error return. -/
def gather (W : WireFormat) (vol : volume) (blocknum cap : Nat) :
    Option (List Nat) :=
  match vol.read_block blocknum with
  | none => none
  | some blk =>
    if cap < W.decBlockSize blk.BareosHeader then none
    else
      match wbWrite cap [] blk.BareosHeader with
      | none => none
      | some out =>
        gatherLoop vol cap
          ((vol.read_records blk.start blk.count).getD
            (List.replicate blk.count (defaultRec W))) out

/- ===================================================================
   Device facade, from the same source file.
   =================================================================== -/

inductive DeviceMode
  | CREATE_READ_WRITE
  | OPEN_READ_WRITE
  | OPEN_READ_ONLY
  | OPEN_WRITE_ONLY
deriving DecidableEq, Repr

/-- The positional and ownership state of the dedup device facade:
mounted flag, the synthetic file-descriptor counter, at most one open
volume, the (file, block_num, file_addr) cursor, the EOT flag and the
open mode. -/
structure DeviceState where
  mounted : Bool
  fd_ctr : Int
  open_volume : Option volume
  file : Nat
  block_num : Nat
  file_addr : Nat
  eot : Bool
  open_mode : DeviceMode
deriving DecidableEq, Repr

/-- block_number (source lines 44-49): the 64-bit block index formed from
the 32-bit (file, block) pair.  In the source block is a uint32_t, so the
bitwise or coincides with addition. -/
def block_number (rfile rblock : Nat) : Nat := rfile * 4294967296 + rblock

/-- d_write (source lines 276-305): reject an unknown file descriptor or a
missing volume; set EOT; if the cursor is block 0 while the volume holds
exactly one block, reset the volume (the relabel special case); reject a
cursor that is not at the end of the volume; otherwise scatter.  The
ASSERT on is_ok is modelled as an error return. -/
def d_write (W : WireFormat) (dev : DeviceState) (fd : Int) (data : List Nat) :
    Option Nat × DeviceState :=
  if fd ≠ dev.fd_ctr then (none, dev)
  else
    match dev.open_volume with
    | none => (none, dev)
    | some vol =>
      if vol.ok = false then (none, dev)
      else
        let dev1 := { dev with eot := true }
        let current_block := block_number dev.file dev.block_num
        let vol1 := if current_block = 0 ∧ vol.size = 1 then vol.reset else vol
        if current_block ≠ vol1.size then (none, { dev1 with open_volume := some vol1 })
        else
          match scatter W vol1 data with
          | (res, vol2) => (res, { dev1 with open_volume := some vol2 })

/-- d_read (source lines 337-359): reject an unknown file descriptor or a
missing volume; gather at the cursor block; set EOT exactly when the block
read was the last one.  The ASSERT on is_ok is modelled as an error
return. -/
def d_read (W : WireFormat) (dev : DeviceState) (fd : Int) (cap : Nat) :
    Option (List Nat) × DeviceState :=
  if fd ≠ dev.fd_ctr then (none, dev)
  else
    match dev.open_volume with
    | none => (none, dev)
    | some vol =>
      if vol.ok = false then (none, dev)
      else
        let blk := block_number dev.file dev.block_num
        let res := gather W vol blk cap
        if blk + 1 = vol.size then (res, { dev with eot := true })
        else (res, { dev with eot := false })

/-- d_truncate (source lines 413-446).  With no volume open the source
executes return -1 in a bool function, which converts to true.  Without a
configured secure-erase command it returns vol.reset() in place.  With one
it closes the volume, deletes its directory (delete_volume, whose
filesystem work is summarized by the delete_ok oracle), and recreates the
volume at the same path in CREATE_READ_WRITE mode with the prior
permissions and with the device resource's configured dedup_block_size;
creating a fresh volume succeeds in the model (segments initialized
empty).  The ASSERT on is_ok is modelled as a false return. -/
def d_truncate (secure_erase_cmdline : Bool) (dedup_block_size : Nat)
    (delete_ok : Bool) (dev : DeviceState) : Bool × DeviceState :=
  match dev.open_volume with
  | none => (true, dev)
  | some vol =>
    if vol.ok = false then (false, dev)
    else if secure_erase_cmdline = false then
      (true, { dev with open_volume := some vol.reset })
    else
      let volume_path := vol.name
      let perm := vol.perm
      let dev1 := { dev with open_volume := none }
      if delete_ok = false then (false, dev1)
      else
        (true, { dev1 with
                 open_volume := some (mkVolume volume_path perm dedup_block_size),
                 open_mode := DeviceMode.CREATE_READ_WRITE })

/- ===================================================================
   Option parsing (source lines 106-151, dedup_options::parse).
   util::options::parse_options and size_to_uint64 live outside the given
   source files and are modelled from the spec: a well-formed options
   string parses to a key/value map, and sizes are digit strings with an
   optional k/K/m/M/g/G suffix.
   =================================================================== -/

/-- Modelled from the spec: the multiplier of a size suffix. -/
def suffixMult (c : Char) : Option Nat :=
  if c = 'k' ∨ c = 'K' then some 1024
  else if c = 'm' ∨ c = 'M' then some (1024 * 1024)
  else if c = 'g' ∨ c = 'G' then some (1024 * 1024 * 1024)
  else none

/-- Decimal value of a digit string. -/
def charsToNum (l : List Char) : Nat :=
  l.foldl (fun acc c => acc * 10 + (c.toNat - 48)) 0

/-- Modelled from the spec: size_to_uint64 of lib/edit accepts a size in
bytes given as digits with an optional k/K/m/M/g/G suffix; anything else
is malformed. -/
def size_to_uint64 (s : List Char) : Option Nat :=
  let ds := s.takeWhile Char.isDigit
  let rest := s.dropWhile Char.isDigit
  if ds.isEmpty then none
  else
    match rest with
    | [] => some (charsToNum ds)
    | [c] => (suffixMult c).map (fun m => charsToNum ds * m)
    | _ => none

/-- Modelled from the spec: the key/value map produced by parse_options
for a well-formed options string, as an association list with the map's
lookup. -/
def findOpt (opts : List (String × String)) (k : String) : Option String :=
  (opts.find? (fun p => p.1 = k)).map (fun p => p.2)

/-- The parsed dedup device options: a block size (default 4096) and the
accumulated warning text. -/
structure dedup_options where
  blocksize : Nat
  warnings : List Char
deriving DecidableEq, Repr

def bskey : String := "blocksize"

def msgDefaultBlocksize : List Char :=
  "Blocksize was not set explicitly; set to default 4k\n".data

def msgBadBlockSize : List Char := "bad block size: ".data

def msgUnknownOptions : List Char := "Unknown options: ".data

/-- The unknown-options warning of dedup_options::parse (source lines
140-147): nothing when no options remain, otherwise each remaining key
followed by a space. -/
def unknownWarn (rest : List (String × String)) : List Char :=
  if rest.isEmpty then []
  else msgUnknownOptions ++ (rest.map (fun p => p.1.data ++ [' '])).flatten ++ ['\n']

/-- dedup_options::parse (source lines 112-150) on the parsed key/value
map: a present blocksize value must parse as a size, else the parse fails
with bad block size; an absent blocksize keeps the default 4096 and warns;
remaining (unknown) keys are listed in a warning.  Erasing the found
blocksize entry from the map is modelled by filtering the key out. -/
def dedup_options_parse (opts : List (String × String)) :
    Except (List Char) dedup_options :=
  match findOpt opts bskey with
  | some v =>
    match size_to_uint64 v.data with
    | none => Except.error (msgBadBlockSize ++ v.data)
    | some bs =>
      Except.ok { blocksize := bs,
                  warnings := unknownWarn (opts.filter (fun p => p.1 ≠ bskey)) }
  | none =>
    Except.ok { blocksize := 4096,
                warnings := msgDefaultBlocksize ++ unknownWarn opts }

/- ===================================================================
   Virtual backup (consolidator), from src/core/src/dird/vbackup.cc.

   The catalog is modelled as a list of job rows; the catalog adapter
   operations (GetJobRecord, UpdateJobStartRecord, UpdateJobEnd, the two
   SQL queries and PurgeJobsFromCatalog) and the storage-worker protocol
   are external to the given source files and are modelled from the spec
   (sections 4.6 and 6).  External call outcomes are oracle fields of Env.
   Log output is modelled as a list of structured events, in program
   order.
   =================================================================== -/

/-- A catalog Job row, restricted to the columns the consolidator reads
or writes: JobId, Level, PurgedFiles, StartTime, EndTime, JobTDate. -/
structure JobRow where
  JobId : Nat
  JobLevel : Nat
  PurgedFiles : Nat
  StartTime : Nat
  EndTime : Nat
  JobTDate : Nat
deriving DecidableEq, Repr

/-- Job status codes used by the consolidator. -/
inductive JStatus
  | Terminated
  | Warnings
  | ErrorTerminated
  | FatalError
  | Canceled
  | Running
  | WaitSD
  | Created
deriving DecidableEq, Repr

/-- The log messages and externally visible actions of the run and
cleanup phases, in program order. -/
inductive Event
  | fatal_no_read_storage
  | fatal_no_write_storage
  | info_start_vbackup
  | warn_not_accurate
  | fatal_no_previous_jobs
  | err_missing_job (id : Nat)
  | fatal_jobs_missing
  | err_purged_files (id : Nat)
  | fatal_files_pruned
  | fatal_first_job_record
  | fatal_prev_job_record
  | fatal_bootstrap
  | info_consolidating
  | sd_connect_attempt
  | fatal_sd_connect
  | fatal_sd_start_job
  | fatal_update_start
  | fatal_fsend_run
  | fatal_msg_thread
  | info_set_joblevel
  | info_replicate_deleted
  | warn_replicate_deleted
  | warn_get_job_record
  | warn_get_client_record
  | info_purged_consolidated
  | backup_summary
deriving DecidableEq, Repr

/-- Modelled from the spec: outcomes of the external collaborators (the
catalog connection, the storage-worker channel, the bootstrap writer) and
the worker-reported termination data. -/
structure Env where
  has_read_storage : Bool
  has_write_storage : Bool
  accurate_jobids : List Nat
  bootstrap_ok : Bool
  connect_ok : Bool
  start_sd_ok : Bool
  update_start_ok : Bool
  fsend_ok : Bool
  msg_thread_ok : Bool
  sd_status : JStatus
  SDJobFiles : Nat
  SDJobBytes : Nat
  SDErrors : Nat
  replicate_ok : Bool
  get_client_ok : Bool
  now : Nat
  now_end : Nat
deriving DecidableEq, Repr

/-- The job control record fields the consolidator reads or writes:
identity, the accurate flag, an optional caller-supplied jobid list
(vf_jobids), status, counters, the job db record jr, the previous_jr
record holding the last consolidated job, and the always-incremental
policy flags. -/
structure JCR where
  JobId : Nat
  accurate : Bool
  vf_jobids : Option (List Nat)
  JobStatus : JStatus
  JobErrors : Nat
  JobFiles : Nat
  JobBytes : Nat
  jr : JobRow
  previous_jr : JobRow
  AlwaysIncremental : Bool
  AlwaysIncrementalJobRetention : Bool
deriving DecidableEq, Repr

/-- Modelled from the spec: GetJobRecord fetches the catalog row of a
JobId. -/
def getJobRecord (cat : List JobRow) (id : Nat) : Option JobRow :=
  cat.find? (fun r => r.JobId = id)

/-- Modelled from the spec: an SQL UPDATE of the rows with the given
JobId. -/
def updateRow (cat : List JobRow) (id : Nat) (f : JobRow → JobRow) :
    List JobRow :=
  cat.map (fun r => if r.JobId = id then f r else r)

/-- Modelled from the spec: UpdateJobEnd of the surrounding job machinery
(cleanup step, update the job-end row): adopt the termination code as the
job status, stamp the end time, and write the job record fields,
including the level, to the catalog row. -/
def UpdateJobEnd (env : Env) (jcr : JCR) (TermCode : JStatus)
    (cat : List JobRow) : JCR × List JobRow :=
  let jcr1 := { jcr with
                JobStatus := TermCode
                jr := { jcr.jr with EndTime := env.now_end } }
  (jcr1,
   updateRow cat jcr1.jr.JobId (fun r =>
     { r with
       JobLevel := jcr1.jr.JobLevel
       StartTime := jcr1.jr.StartTime
       EndTime := jcr1.jr.EndTime
       JobTDate := jcr1.jr.JobTDate }))

/-- NativeVbackupCleanup (source lines 389-506): for a Terminated or
Warnings job status override the job level with the level of the first
consolidated job; copy the worker counters; downgrade the termination
code to Warnings when errors were seen despite JS_Terminated; update the
job-end row; overwrite the job row's StartTime, EndTime and JobTDate with
those of previous_jr; re-fetch the job row (downgrading the status on
failure); best-effort replication of deleted files when a caller-supplied
jobid list is present; emit the summary. -/
def NativeVbackupCleanup (env : Env) (jcr : JCR) (TermCode : JStatus)
    (JobLevel : Nat) (cat : List JobRow) : JCR × List JobRow × List Event :=
  let step1 :=
    if jcr.JobStatus = JStatus.Terminated ∨ jcr.JobStatus = JStatus.Warnings then
      ({ jcr with jr := { jcr.jr with JobLevel := JobLevel } },
       [Event.info_set_joblevel])
    else (jcr, ([] : List Event))
  let jcr1 := step1.1
  let jcr2 := { jcr1 with JobFiles := env.SDJobFiles, JobBytes := env.SDJobBytes }
  let TermCode1 :=
    if jcr2.JobStatus = JStatus.Terminated ∧ (jcr2.JobErrors ≠ 0 ∨ env.SDErrors ≠ 0)
    then JStatus.Warnings
    else TermCode
  let upd := UpdateJobEnd env jcr2 TermCode1 cat
  let jcr3 := upd.1
  let cat2 := updateRow upd.2 jcr3.JobId (fun r =>
    { r with
      StartTime := jcr3.previous_jr.StartTime
      EndTime := jcr3.previous_jr.EndTime
      JobTDate := jcr3.previous_jr.JobTDate })
  let step6 :=
    match getJobRecord cat2 jcr3.jr.JobId with
    | some r => ({ jcr3 with jr := r }, ([] : List Event))
    | none => ({ jcr3 with JobStatus := JStatus.ErrorTerminated },
               [Event.warn_get_job_record])
  let jcr4 := step6.1
  let ev3 :=
    match jcr4.vf_jobids with
    | some l =>
      if l ≠ [] then
        if env.replicate_ok then [Event.info_replicate_deleted]
        else [Event.info_replicate_deleted, Event.warn_replicate_deleted]
      else []
    | none => []
  let ev4 := if env.get_client_ok then ([] : List Event)
             else [Event.warn_get_client_record]
  (jcr4, cat2, step1.2 ++ step6.2 ++ ev3 ++ ev4 ++ [Event.backup_summary])

/-- DoNativeVbackup (source lines 214-386): require read and write
storage; resolve the consolidation jobid list (caller-supplied vf_jobids,
else the accurate chain); fail on an empty list; run the consistency
query and fail naming every missing JobId, then fail naming every JobId
with purged files; fetch the first job's record for its level and the
last job's record into previous_jr; build the bootstrap; connect to the
storage worker and start the worker job; re-stamp the job start row; send
run and start the message thread; adopt the worker status; if it is not
Terminated fail, else run cleanup and optionally purge the consolidated
jobs from the catalog.  Returns (success, final jcr, final catalog,
events). -/
def DoNativeVbackup (env : Env) (jcr : JCR) (cat : List JobRow) :
    Bool × JCR × List JobRow × List Event :=
  if env.has_read_storage = false then
    (false, jcr, cat, [Event.fatal_no_read_storage])
  else if env.has_write_storage = false then
    (false, jcr, cat, [Event.fatal_no_write_storage])
  else
    let ev0 := [Event.info_start_vbackup]
      ++ (if jcr.accurate then ([] : List Event) else [Event.warn_not_accurate])
    let l := jcr.vf_jobids.getD env.accurate_jobids
    if hl : l = [] then (false, jcr, cat, ev0 ++ [Event.fatal_no_previous_jobs])
    else
      let rows := cat.filter (fun r => r.JobId ∈ l)
      let JobList := rows.map (fun r => r.JobId)
      let purged := (rows.filter (fun r => r.PurgedFiles ≠ 0)).map (fun r => r.JobId)
      if JobList.length ≠ l.length then
        (false, jcr, cat,
         ev0 ++ (l.filter (fun j => j ∉ JobList)).map Event.err_missing_job
             ++ [Event.fatal_jobs_missing])
      else if purged ≠ [] then
        (false, jcr, cat,
         ev0 ++ purged.map Event.err_purged_files ++ [Event.fatal_files_pruned])
      else
        match getJobRecord cat (l.head hl) with
        | none => (false, jcr, cat, ev0 ++ [Event.fatal_first_job_record])
        | some first_jr =>
          let first_level := first_jr.JobLevel
          match getJobRecord cat (l.getLast hl) with
          | none => (false, jcr, cat, ev0 ++ [Event.fatal_prev_job_record])
          | some prev =>
            let jcr1 := { jcr with previous_jr := prev }
            if env.bootstrap_ok = false then
              (false, jcr1, cat, ev0 ++ [Event.fatal_bootstrap])
            else
              let ev1 := ev0 ++ [Event.info_consolidating, Event.sd_connect_attempt]
              let jcr2 := { jcr1 with JobStatus := JStatus.WaitSD }
              if env.connect_ok = false then
                (false, jcr2, cat, ev1 ++ [Event.fatal_sd_connect])
              else if env.start_sd_ok = false then
                (false, jcr2, cat, ev1 ++ [Event.fatal_sd_start_job])
              else
                let jcr3 := { jcr2 with
                              jr := { jcr2.jr with StartTime := env.now, JobTDate := env.now }
                              JobStatus := JStatus.Running }
                if env.update_start_ok = false then
                  (false, jcr3, cat, ev1 ++ [Event.fatal_update_start])
                else
                  let cat1 := updateRow cat jcr3.jr.JobId (fun r =>
                    { r with
                      StartTime := jcr3.jr.StartTime
                      JobTDate := jcr3.jr.JobTDate })
                  if env.fsend_ok = false then
                    (false, jcr3, cat1, ev1 ++ [Event.fatal_fsend_run])
                  else if env.msg_thread_ok = false then
                    (false, jcr3, cat1, ev1 ++ [Event.fatal_msg_thread])
                  else
                    let jcr4 := { jcr3 with JobStatus := env.sd_status }
                    if jcr4.JobStatus ≠ JStatus.Terminated then
                      (false, jcr4, cat1, ev1)
                    else
                      let fin := NativeVbackupCleanup env jcr4 jcr4.JobStatus
                        first_level cat1
                      if fin.1.AlwaysIncremental ∧ fin.1.AlwaysIncrementalJobRetention
                      then
                        (true, fin.1, (fin.2.1).filter (fun r => r.JobId ∉ l),
                         ev1 ++ fin.2.2 ++ [Event.info_purged_consolidated])
                      else (true, fin.1, fin.2.1, ev1 ++ fin.2.2)

/- ===================================================================
   Spec-level predicate used to state the truncation property of scatter,
   and concrete instances used by witnesses.
   =================================================================== -/

/-- The truncation property of a record descriptor produced by scatter on
the input buffer data with declared block size bsize, relative to the data
segment vdata of the volume: at some position p inside the block the
descriptor carries the record-header bytes found there, its stored size is
the declared DataSize truncated at the end of the block, and the stored
payload bytes are exactly that truncated slice of the input. -/
def trunc_ok (W : WireFormat) (data : List Nat) (bsize : Nat)
    (vdata : List Nat) (r : record_header) : Prop :=
  ∃ p, p + W.rh_size ≤ bsize ∧
    r.BareosHeader = (data.drop p).take W.rh_size ∧
    r.size = min (W.decDataSize ((data.drop p).take W.rh_size))
                 (bsize - (p + W.rh_size)) ∧
    r.start + r.size ≤ vdata.length ∧
    (vdata.drop r.start).take r.size = (data.drop (p + W.rh_size)).take r.size

/-- A concrete wire format for witnesses: one-byte headers whose single
byte is the declared size. -/
def Wc : WireFormat :=
  { bh_size := 1, rh_size := 1, bh_pos := by decide, rh_pos := by decide,
    decBlockSize := fun l => l.headD 0, decDataSize := fun l => l.headD 0 }

/-- A fresh empty volume for witnesses. -/
def vol0 : volume := mkVolume "v" 384 4096

/-- The volume produced by scattering the block [3, 9, 9] into vol0 under
Wc: one payload byte 9, one record descriptor, one block descriptor. -/
def volX : volume :=
  { name := "v", perm := 384, blocksize := 4096, data := [9],
    records := [{ BareosHeader := [9], start := 0, size := 1, file_index := 0 }],
    blocks := [{ BareosHeader := [3], start := 0, count := 1 }], ok := true }

/-- A corrupt volume whose single block descriptor references records that
are not present, so read_records on it fails. -/
def volC : volume :=
  { name := "v", perm := 0, blocksize := 4096, data := [], records := [],
    blocks := [{ BareosHeader := [0], start := 5, count := 1 }], ok := true }

/-- A volume whose record descriptor points past the end of the data
segment, so read_data on it fails. -/
def volD : volume :=
  { name := "v", perm := 0, blocksize := 4096, data := [],
    records := [{ BareosHeader := [0], start := 0, size := 5, file_index := 0 }],
    blocks := [{ BareosHeader := [0], start := 0, count := 1 }], ok := true }

/-- The block descriptor of volD. -/
def blkD : block_header := { BareosHeader := [0], start := 0, count := 1 }

/-- The record descriptor of volD. -/
def recD : record_header :=
  { BareosHeader := [0], start := 0, size := 5, file_index := 0 }

/-- A device with volX open at cursor (0, 0), for the relabel witness. -/
def devA : DeviceState :=
  { mounted := true, fd_ctr := 1, open_volume := some volX,
    file := 0, block_num := 0, file_addr := 0, eot := false,
    open_mode := DeviceMode.OPEN_READ_WRITE }

/-- devA with the cursor moved to block 5 (not at end of device). -/
def devB : DeviceState := { devA with block_num := 5 }

/-- A volume created with configured block size 8192, for the truncate
counterexample. -/
def volT : volume := mkVolume "w" 384 8192

/-- The volume produced by scattering the block [2, 7] into vol0 under Wc:
the single record declares DataSize 7 but the block ends immediately, so
the stored payload is empty and the descriptor records size 0. -/
def volY : volume :=
  { name := "v", perm := 384, blocksize := 4096, data := [],
    records := [{ BareosHeader := [7], start := 0, size := 0, file_index := 0 }],
    blocks := [{ BareosHeader := [2], start := 0, count := 1 }], ok := true }

/-- The parse result for the option map with the single unknown key foo:
default blocksize with both warnings. -/
def optsFoo : dedup_options :=
  { blocksize := 4096,
    warnings := msgDefaultBlocksize ++ unknownWarn [("foo", "bar")] }

/-- A device with volT open, for the truncate counterexample. -/
def devT : DeviceState :=
  { mounted := true, fd_ctr := 1, open_volume := some volT,
    file := 0, block_num := 0, file_addr := 0, eot := false,
    open_mode := DeviceMode.OPEN_READ_WRITE }

/-- A catalog job row literal. -/
def rowJ (id lvl pf st et td : Nat) : JobRow :=
  { JobId := id, JobLevel := lvl, PurgedFiles := pf, StartTime := st,
    EndTime := et, JobTDate := td }

/-- An environment in which every external collaborator succeeds and the
storage worker terminates with JS_Terminated. -/
def envOK : Env :=
  { has_read_storage := true, has_write_storage := true, accurate_jobids := [],
    bootstrap_ok := true, connect_ok := true, start_sd_ok := true,
    update_start_ok := true, fsend_ok := true, msg_thread_ok := true,
    sd_status := JStatus.Terminated, SDJobFiles := 10, SDJobBytes := 1000,
    SDErrors := 0, replicate_ok := true, get_client_ok := true,
    now := 500, now_end := 600 }

/-- A healthy catalog: the chain 100, 101, 102 with distinct levels and
times, none purged, plus the synthetic job row 200. -/
def catA : List JobRow :=
  [rowJ 100 2 0 10 11 12, rowJ 101 3 0 20 21 22, rowJ 102 4 0 30 31 32,
   rowJ 200 5 0 40 41 42]

/-- The synthetic job 200 consolidating the caller-supplied chain
100, 101, 102. -/
def jcrA : JCR :=
  { JobId := 200, accurate := true, vf_jobids := some [100, 101, 102],
    JobStatus := JStatus.Running, JobErrors := 0, JobFiles := 0, JobBytes := 0,
    jr := rowJ 200 5 0 40 41 42, previous_jr := rowJ 0 0 0 0 0 0,
    AlwaysIncremental := false, AlwaysIncrementalJobRetention := false }

/-- A catalog in which job 101 of the chain has purged files. -/
def catP : List JobRow :=
  [rowJ 100 2 0 10 11 12, rowJ 101 3 1 20 21 22, rowJ 102 4 0 30 31 32,
   rowJ 200 5 0 40 41 42]

/-- A catalog holding only job 100, with purged files. -/
def catC : List JobRow := [rowJ 100 2 1 10 11 12]

/-- The synthetic job 200 consolidating the chain 100, 101, where 101 is
missing from catC. -/
def jcrC : JCR := { jcrA with vf_jobids := some [100, 101] }

/- ===================================================================
   Helper lemmas.
   =================================================================== -/

theorem slice_append (l m : List Nat) (s z : Nat) (h : s + z ≤ l.length) :
    ((l ++ m).drop s).take z = (l.drop s).take z := by
  rw [List.drop_append_of_le_length (by omega)]
  rw [List.take_append_of_le_length (by rw [List.length_drop]; omega)]

theorem trunc_ok_mono {W : WireFormat} {data : List Nat} {bsize : Nat}
    {vdata : List Nat} {r : record_header} (t : List Nat)
    (h : trunc_ok W data bsize vdata r) :
    trunc_ok W data bsize (vdata ++ t) r := by
  obtain ⟨p, h1, h2, h3, h4, h5⟩ := h
  refine ⟨p, h1, h2, h3, by simpa using Nat.le_trans h4 (by simp), ?_⟩
  rw [slice_append _ _ _ _ h4]
  exact h5

theorem scatterLoop_blocks_records (W : WireFormat) (data : List Nat)
    (bsize : Nat) :
    ∀ fuel pos vol acc,
      ((scatterLoop W data bsize fuel pos vol acc).2).blocks = vol.blocks ∧
      ((scatterLoop W data bsize fuel pos vol acc).2).records = vol.records := by
  intro fuel
  induction fuel with
  | zero => intro pos vol acc; simp [scatterLoop]
  | succ n ih =>
    intro pos vol acc
    by_cases h1 : pos = bsize
    · simp [scatterLoop, h1]
    · by_cases h2 : bsize < pos + W.rh_size
      · simp [scatterLoop, h1, h2]
      · by_cases hok : vol.ok
        · simp only [scatterLoop, if_neg h1, if_neg h2, volume.append_data,
            if_pos hok]
          exact ⟨(ih _ _ _).1, (ih _ _ _).2⟩
        · simp [scatterLoop, h1, h2, volume.append_data, hok]

theorem append_records_inv {v : volume} {rs : List record_header}
    {start : Nat} {v2 : volume}
    (h : v.append_records rs = some (start, v2)) :
    start = v.records.length ∧ v2 = { v with records := v.records ++ rs } := by
  simp only [volume.append_records] at h
  split at h
  · simp only [Option.some.injEq, Prod.mk.injEq] at h
    exact ⟨h.1.symm, h.2.symm⟩
  · exact absurd h (by simp)

theorem append_block_inv {v : volume} {b : block_header} {v2 : volume}
    (h : v.append_block b = some v2) :
    v2 = { v with blocks := v.blocks ++ [b] } := by
  simp only [volume.append_block] at h
  split at h
  · simp only [Option.some.injEq] at h
    exact h.symm
  · exact absurd h (by simp)

theorem scatter_inv (W : WireFormat) (vol : volume) (data : List Nat)
    {n : Nat} {vol2 : volume} (h : scatter W vol data = (some n, vol2)) :
    W.decBlockSize (data.take W.bh_size) ≤ data.length ∧
    ∃ recs vol1,
      scatterLoop W data (W.decBlockSize (data.take W.bh_size))
        (W.decBlockSize (data.take W.bh_size) + 1) W.bh_size vol []
        = (some recs, vol1) ∧
      vol2 = { vol1 with
               records := vol1.records ++ recs
               blocks := vol1.blocks ++
                 [{ BareosHeader := data.take W.bh_size,
                    start := vol1.records.length, count := recs.length }] } := by
  simp only [scatter] at h
  split at h
  · exact absurd h (by simp)
  · split at h
    · exact absurd h (by simp)
    · split at h
      · exact absurd h (by simp)
      · rename_i hlen
        refine ⟨by omega, ?_⟩
        split at h
        · exact absurd h (by simp)
        · rename_i recs vol1 hloop
          refine ⟨recs, vol1, hloop, ?_⟩
          split at h
          · exact absurd h (by simp)
          · rename_i start vol2a hrecs
            obtain ⟨hstart, hv2a⟩ := append_records_inv hrecs
            split at h
            · exact absurd h (by simp)
            · rename_i vol3 hblk
              have hv3 := append_block_inv hblk
              simp only [Prod.mk.injEq, Option.some.injEq] at h
              subst hv2a hstart
              rw [← h.2, hv3]

theorem scatter_blocks_append (W : WireFormat) (vol : volume)
    (data : List Nat) {n : Nat} {vol2 : volume}
    (h : scatter W vol data = (some n, vol2)) :
    ∃ b, vol2.blocks = vol.blocks ++ [b] := by
  obtain ⟨hle, recs, vol1, hloop, hv2⟩ := scatter_inv W vol data h
  have hb := (scatterLoop_blocks_records W data
    (W.decBlockSize (data.take W.bh_size))
    (W.decBlockSize (data.take W.bh_size) + 1) W.bh_size vol []).1
  rw [hloop] at hb
  refine ⟨{ BareosHeader := data.take W.bh_size,
            start := vol1.records.length, count := recs.length }, ?_⟩
  rw [hv2]
  show vol1.blocks ++ _ = _
  rw [hb]

theorem scatterLoop_trunc (W : WireFormat) (data : List Nat) (bsize : Nat)
    (hdl : bsize ≤ data.length) :
    ∀ fuel pos vol acc recs vol2,
      scatterLoop W data bsize fuel pos vol acc = (some recs, vol2) →
      (∀ r ∈ acc, trunc_ok W data bsize vol.data r) →
      (∃ t, vol2.data = vol.data ++ t) ∧
      ∀ r ∈ recs, trunc_ok W data bsize vol2.data r := by
  intro fuel
  induction fuel with
  | zero => intro pos vol acc recs vol2 h hacc; simp [scatterLoop] at h
  | succ fl ih =>
    intro pos vol acc recs vol2 h hacc
    by_cases h1 : pos = bsize
    · simp only [scatterLoop, if_pos h1, Prod.mk.injEq, Option.some.injEq] at h
      refine ⟨⟨[], by simp [← h.2]⟩, ?_⟩
      intro r hr
      rw [← h.2]
      rw [← h.1] at hr
      exact hacc r (List.mem_reverse.mp hr)
    · by_cases h2 : bsize < pos + W.rh_size
      · simp [scatterLoop, h1, h2] at h
      · by_cases hok : vol.ok
        · simp only [scatterLoop, if_neg h1, if_neg h2, volume.append_data,
            if_pos hok] at h
          have hpsle : min (pos + W.rh_size + W.decDataSize
              ((data.drop pos).take W.rh_size)) bsize - (pos + W.rh_size)
              ≤ data.length - (pos + W.rh_size) := by omega
          have hplen : ((data.drop (pos + W.rh_size)).take
              (min (pos + W.rh_size + W.decDataSize
                ((data.drop pos).take W.rh_size)) bsize
               - (pos + W.rh_size))).length
              = min (pos + W.rh_size + W.decDataSize
                  ((data.drop pos).take W.rh_size)) bsize
                - (pos + W.rh_size) := by
            rw [List.length_take, List.length_drop]
            omega
          have step := ih _ _ _ _ _ h
          obtain ⟨⟨t, ht⟩, hall⟩ := step (by
            intro r hr
            rcases List.mem_cons.mp hr with rfl | hr2
            · refine ⟨pos, by omega, rfl, by dsimp only; omega, ?_, ?_⟩
              · dsimp only
                rw [List.length_append, hplen]
              · dsimp only
                rw [List.drop_append_of_le_length (Nat.le_refl _)]
                rw [List.drop_length]
                rw [List.nil_append]
                rw [List.take_of_length_le (by rw [hplen])]
            · exact trunc_ok_mono _ (hacc r hr2))
          constructor
          · refine ⟨(data.drop (pos + W.rh_size)).take
              (min (pos + W.rh_size + W.decDataSize
                ((data.drop pos).take W.rh_size)) bsize
               - (pos + W.rh_size)) ++ t, ?_⟩
            rw [ht]
            simp [List.append_assoc]
          · exact hall
        · simp [scatterLoop, h1, h2, volume.append_data, hok] at h

/- ===================================================================
   Claims C7, C8 (scatter) and C2 (gather).
   =================================================================== -/

/-- C7: every successful scatter(vol, buf, size) call appends exactly one
block descriptor, so vol.size() after the call equals vol.size() before
the call plus one. -/
theorem scatter_appends_one_block (W : WireFormat) (vol : volume)
    (data : List Nat) (n : Nat) (vol2 : volume)
    (h : scatter W vol data = (some n, vol2)) :
    (∃ b, vol2.blocks = vol.blocks ++ [b]) ∧ vol2.size = vol.size + 1 := by
  obtain ⟨b, hb⟩ := scatter_blocks_append W vol data h
  exact ⟨⟨b, hb⟩, by simp [volume.size, hb]⟩

/-- Witness for C7: scattering one concrete block into the empty volume
succeeds and the size grows from 0 to 1. -/
theorem scatter_appends_one_block_witness :
    scatter Wc vol0 [3, 9, 9] = (some 3, volX) ∧
    ((∃ b, volX.blocks = vol0.blocks ++ [b]) ∧ volX.size = vol0.size + 1) :=
  ⟨by decide, scatter_appends_one_block Wc vol0 [3, 9, 9] 3 volX (by decide)⟩

/-- C8: during scatter, every record descriptor it appends stores the
declared DataSize truncated at the end of the block (length
min(DataSize, bytes remaining up to buf + BlockSize)), and the payload
bytes it passed to append_data are exactly that truncated slice of the
input buffer. -/
theorem scatter_truncates_payload (W : WireFormat) (vol : volume)
    (data : List Nat) (n : Nat) (vol2 : volume)
    (h : scatter W vol data = (some n, vol2)) :
    ∀ r ∈ vol2.records, r ∈ vol.records ∨
      trunc_ok W data (W.decBlockSize (data.take W.bh_size)) vol2.data r := by
  obtain ⟨hle, recs, vol1, hloop, hv2⟩ := scatter_inv W vol data h
  have hseg := scatterLoop_blocks_records W data
    (W.decBlockSize (data.take W.bh_size))
    (W.decBlockSize (data.take W.bh_size) + 1) W.bh_size vol []
  rw [hloop] at hseg
  obtain ⟨⟨t, ht⟩, hall⟩ := scatterLoop_trunc W data _ hle _ _ _ _ _ _ hloop
    (by intro r hr; simp at hr)
  intro r hr
  rw [hv2] at hr
  dsimp only at hr
  rcases List.mem_append.mp hr with hr1 | hr2
  · left
    rw [← hseg.2]
    exact hr1
  · right
    rw [hv2]
    exact hall r hr2

/-- Witness for C8: the block [2, 7] declares a record DataSize of 7 with
no remaining bytes in the block, so the stored record has size 0. -/
theorem scatter_truncates_payload_witness :
    scatter Wc vol0 [2, 7] = (some 2, volY) ∧
    (∀ r ∈ volY.records, r ∈ vol0.records ∨
      trunc_ok Wc [2, 7] (Wc.decBlockSize ([2, 7].take Wc.bh_size)) volY.data r) :=
  ⟨by decide, scatter_truncates_payload Wc vol0 [2, 7] 2 volY (by decide)⟩

theorem gatherLoop_read_data_fail (vol : volume) (cap : Nat) :
    ∀ recs out r, r ∈ recs →
      vol.read_data r.file_index r.start r.size = none →
      gatherLoop vol cap recs out = none := by
  intro recs
  induction recs with
  | nil => intro out r hr; simp at hr
  | cons a rest ih =>
    intro out r hr hfail
    simp only [gatherLoop]
    cases hw : wbWrite cap out a.BareosHeader with
    | none => rfl
    | some out1 =>
      dsimp only
      by_cases hcap : cap < out1.length + a.size
      · simp [hcap]
      · simp only [if_neg hcap]
        rcases List.mem_cons.mp hr with rfl | hr2
        · rw [hfail]
        · cases hrd : vol.read_data a.file_index a.start a.size with
          | none => rfl
          | some payload => exact ih _ r hr2 hfail

/-- C2 corrected: gather returns an error whenever read_block on the block
descriptor fails or read_data on some record payload in its effective
record list fails; the result of read_records is not checked by the
source, so a read_records failure alone does not produce an error. -/
theorem gather_fails_on_read_block_or_read_data (W : WireFormat)
    (vol : volume) (i cap : Nat) :
    (vol.read_block i = none → gather W vol i cap = none) ∧
    (∀ blk, vol.read_block i = some blk →
      ∀ r ∈ (vol.read_records blk.start blk.count).getD
          (List.replicate blk.count (defaultRec W)),
        vol.read_data r.file_index r.start r.size = none →
        gather W vol i cap = none) := by
  constructor
  · intro h
    simp [gather, h]
  · intro blk hb r hr hfail
    simp only [gather, hb]
    split
    · rfl
    · cases hw : wbWrite cap [] blk.BareosHeader with
      | none => rfl
      | some out =>
        exact gatherLoop_read_data_fail vol cap _ out r hr hfail

/-- Witness for the corrected C2: gather fails on volD, whose record
descriptor points past the end of the data segment. -/
theorem gather_fails_witness :
    volD.read_block 0 = some blkD ∧
    recD ∈ (volD.read_records blkD.start blkD.count).getD
      (List.replicate blkD.count (defaultRec Wc)) ∧
    volD.read_data recD.file_index recD.start recD.size = none ∧
    gather Wc volD 0 10 = none :=
  ⟨by decide, by decide, by decide,
   (gather_fails_on_read_block_or_read_data Wc volD 0 10).2 blkD (by decide)
     recD (by decide) (by decide)⟩

/-- Counterexample to C2 as stated: on volC the segment read read_records
fails (its block descriptor references absent records), yet gather
delivers a success result built from the value-initialized record vector,
because the source ignores the result of read_records. -/
theorem gather_ignores_read_records_failure :
    volC.read_records 5 1 = none ∧ gather Wc volC 0 10 = some [0, 0] := by
  constructor
  · decide
  · decide

/- ===================================================================
   Claims C4, C5, C10 (device facade write/read) and C3 (truncate).
   =================================================================== -/

/-- C4: for every open device state whose cursor block_number(file,
block_num) differs from vol.size(), when the relabel exception does not
apply, d_write with the current file descriptor returns an error and the
open volume (its contents and hence its size) is unchanged. -/
theorem d_write_rejects_non_append (W : WireFormat) (dev : DeviceState)
    (data : List Nat) (vol : volume)
    (hv : dev.open_volume = some vol) (hok : vol.ok = true)
    (hne : block_number dev.file dev.block_num ≠ vol.size)
    (hnr : ¬(block_number dev.file dev.block_num = 0 ∧ vol.size = 1)) :
    (d_write W dev dev.fd_ctr data).1 = none ∧
    (d_write W dev dev.fd_ctr data).2.open_volume = some vol := by
  simp only [d_write, hv, hok, ne_eq, not_true_eq_false, if_false,
    Bool.true_eq_false, if_neg hnr, if_pos hne]
  simp

/-- Witness for C4: with three blocks in the volume and the cursor at
block 5, d_write fails and the volume is untouched. -/
theorem d_write_rejects_non_append_witness :
    devB.open_volume = some volX ∧ volX.ok = true ∧
    block_number devB.file devB.block_num ≠ volX.size ∧
    ¬(block_number devB.file devB.block_num = 0 ∧ volX.size = 1) ∧
    ((d_write Wc devB devB.fd_ctr [3, 9, 9]).1 = none ∧
     (d_write Wc devB devB.fd_ctr [3, 9, 9]).2.open_volume = some volX) :=
  ⟨by decide, by decide, by decide, by decide,
   d_write_rejects_non_append Wc devB [3, 9, 9] volX (by decide) (by decide)
     (by decide) (by decide)⟩

/-- C5: if the cursor is (0, 0) and vol.size() = 1, a successful d_write
resets the volume to empty before writing: the new open volume is exactly
the result of scattering the written block into the reset (empty) volume,
and its size is 1. -/
theorem d_write_relabel_empty (W : WireFormat) (dev : DeviceState)
    (data : List Nat) (vol : volume) (n : Nat) (dev2 : DeviceState)
    (hv : dev.open_volume = some vol) (hok : vol.ok = true)
    (hf : dev.file = 0) (hb : dev.block_num = 0) (hs : vol.size = 1)
    (hw : d_write W dev dev.fd_ctr data = (some n, dev2)) :
    ∃ vol2, dev2.open_volume = some vol2 ∧ vol2.size = 1 ∧
      scatter W vol.reset data = (some n, vol2) := by
  have hcb : block_number dev.file dev.block_num = 0 := by
    simp [block_number, hf, hb]
  simp only [d_write, hv, hok, ne_eq, not_true_eq_false, if_false,
    Bool.true_eq_false, hcb, hs, and_self, if_true, if_pos] at hw
  have hrs : vol.reset.size = 0 := by simp [volume.reset, volume.size]
  rw [if_neg (by rw [hrs]; exact fun hc => hc rfl)] at hw
  rcases hsc : scatter W vol.reset data with ⟨res, vol2⟩
  rw [hsc] at hw
  simp only [Prod.mk.injEq] at hw
  obtain ⟨hres, hdev⟩ := hw
  rw [hres] at hsc
  refine ⟨vol2, by rw [← hdev], ?_, by rw [hres]⟩
  obtain ⟨b, hbb⟩ := scatter_blocks_append W vol.reset data hsc
  simp [volume.size, hbb, volume.reset]

/-- Witness for C5: devA holds volX (one block) with the cursor at (0, 0);
writing the block [3, 9, 9] succeeds and yields a volume holding exactly
the newly written block. -/
theorem d_write_relabel_empty_witness :
    devA.open_volume = some volX ∧ volX.ok = true ∧ devA.file = 0 ∧
    devA.block_num = 0 ∧ volX.size = 1 ∧
    d_write Wc devA devA.fd_ctr [3, 9, 9] =
      (some 3, { devA with eot := true, open_volume := some volX }) ∧
    (∃ vol2, ({ devA with eot := true, open_volume := some volX } :
        DeviceState).open_volume = some vol2 ∧ vol2.size = 1 ∧
      scatter Wc volX.reset [3, 9, 9] = (some 3, vol2)) :=
  ⟨by decide, by decide, by decide, by decide, by decide, by decide,
   d_write_relabel_empty Wc devA [3, 9, 9] volX 3 _ (by decide) (by decide)
     (by decide) (by decide) (by decide) (by decide)⟩

/-- C10: d_write and d_read return -1 (none) and leave the device, hence
the volume, unchanged whenever the fd argument differs from the synthetic
descriptor fd_ctr or no volume is open. -/
theorem d_write_d_read_reject_bad_fd_or_closed (W : WireFormat)
    (dev : DeviceState) (fd : Int) (data : List Nat) (cap : Nat)
    (h : fd ≠ dev.fd_ctr ∨ dev.open_volume = none) :
    d_write W dev fd data = (none, dev) ∧ d_read W dev fd cap = (none, dev) := by
  rcases h with h | h
  · simp [d_write, d_read, h]
  · by_cases hfd : fd = dev.fd_ctr
    · simp [d_write, d_read, hfd, h]
    · simp [d_write, d_read, hfd]

/-- Witness for C10: fd 7 differs from devA's fd_ctr 1, so both
operations fail and leave the device unchanged. -/
theorem d_write_d_read_reject_bad_fd_or_closed_witness :
    ((7 : Int) ≠ devA.fd_ctr ∨ devA.open_volume = none) ∧
    (d_write Wc devA 7 [3, 9, 9] = (none, devA) ∧
     d_read Wc devA 7 100 = (none, devA)) :=
  ⟨Or.inl (by decide),
   d_write_d_read_reject_bad_fd_or_closed Wc devA 7 [3, 9, 9] 100
     (Or.inl (by decide))⟩

/-- Counterexample to C3 as stated: volT was created with configured block
size 8192, the device resource's dedup_block_size is 4096; after
d_truncate with a secure-erase command configured the recreated volume
has block size 4096, not the prior volume's 8192. -/
theorem d_truncate_blocksize_counterexample :
    volT.blocksize = 8192 ∧ devT.open_volume = some volT ∧
    (d_truncate true 4096 true devT).2.open_volume.map volume.blocksize
      = some 4096 ∧
    (some 4096 : Option Nat) ≠ some 8192 := by
  refine ⟨by decide, by decide, by decide, by decide⟩

/-- C3 amended: when a secure-erase command is configured, d_truncate
closes the open volume, erases and removes its directory (summarized by
the delete_ok oracle), and recreates the volume at the same path in
CREATE_READ_WRITE mode with the prior volume's permissions and with the
device resource's configured dedup block size; when no secure-erase
command is configured it instead calls vol.reset() on the open volume. -/
theorem d_truncate_behavior (secure : Bool) (dbs : Nat) (delete_ok : Bool)
    (dev : DeviceState) (vol : volume)
    (hv : dev.open_volume = some vol) (hok : vol.ok = true) :
    (secure = false →
      d_truncate secure dbs delete_ok dev
        = (true, { dev with open_volume := some vol.reset })) ∧
    (secure = true → delete_ok = true →
      d_truncate secure dbs delete_ok dev
        = (true, { dev with
                   open_volume := some (mkVolume vol.name vol.perm dbs)
                   open_mode := DeviceMode.CREATE_READ_WRITE })) := by
  constructor
  · intro hsec
    simp [d_truncate, hv, hok, hsec]
  · intro hsec hdel
    simp [d_truncate, hv, hok, hsec, hdel]

/-- Witness for the amended C3, at devT with both branches exercised. -/
theorem d_truncate_behavior_witness :
    devT.open_volume = some volT ∧ volT.ok = true ∧
    d_truncate false 4096 true devT
      = (true, { devT with open_volume := some volT.reset }) ∧
    d_truncate true 4096 true devT
      = (true, { devT with
                 open_volume := some (mkVolume volT.name volT.perm 4096)
                 open_mode := DeviceMode.CREATE_READ_WRITE }) :=
  ⟨by decide, by decide,
   (d_truncate_behavior false 4096 true devT volT (by decide) (by decide)).1 rfl,
   (d_truncate_behavior true 4096 true devT volT (by decide) (by decide)).2 rfl rfl⟩

/- ===================================================================
   Claim C9 (option parsing).
   =================================================================== -/

theorem flatten_map_contains {α : Type} (f : α → List Char) :
    ∀ (l : List α) (x : α), x ∈ l →
      ∃ a b, (l.map f).flatten = a ++ (f x ++ b) := by
  intro l
  induction l with
  | nil => intro x hx; simp at hx
  | cons y rest ih =>
    intro x hx
    rcases List.mem_cons.mp hx with rfl | h2
    · exact ⟨[], (rest.map f).flatten, by simp⟩
    · obtain ⟨a, b, hab⟩ := ih x h2
      refine ⟨f y ++ a, b, ?_⟩
      simp [hab, List.append_assoc]

theorem unknownWarn_names_key (rest : List (String × String))
    (kv : String × String) (h : kv ∈ rest) :
    ∃ a b, unknownWarn rest = a ++ (kv.1.data ++ b) := by
  have hne : rest.isEmpty = false := by
    cases rest
    · simp at h
    · rfl
  obtain ⟨a, b, hab⟩ := flatten_map_contains (fun p => p.1.data ++ [' ']) rest kv h
  refine ⟨msgUnknownOptions ++ a, [' '] ++ b ++ ['\n'], ?_⟩
  simp [unknownWarn, hne, hab, List.append_assoc]

/-- C9: for every well-formed options string, given by the key/value map
its parse produces: if the key blocksize is absent, parsing succeeds with
blocksize 4096 and the default-blocksize warning; if the blocksize value
is malformed, parsing fails with the message bad block size followed by
the value; every unrecognized key is named in the warning text. -/
theorem dedup_options_parse_spec (opts : List (String × String)) :
    (findOpt opts bskey = none →
      ∃ r, dedup_options_parse opts = Except.ok r ∧ r.blocksize = 4096 ∧
        ∃ t, r.warnings = msgDefaultBlocksize ++ t) ∧
    (∀ v, findOpt opts bskey = some v → size_to_uint64 v.data = none →
      dedup_options_parse opts = Except.error (msgBadBlockSize ++ v.data)) ∧
    (∀ r, dedup_options_parse opts = Except.ok r →
      ∀ kv ∈ opts, kv.1 ≠ bskey →
        ∃ a b, r.warnings = a ++ (kv.1.data ++ b)) := by
  refine ⟨?_, ?_, ?_⟩
  · intro h
    simp only [dedup_options_parse, h]
    exact ⟨_, rfl, rfl, ⟨unknownWarn opts, rfl⟩⟩
  · intro v hv hbad
    simp [dedup_options_parse, hv, hbad]
  · intro r hr kv hkv hne
    cases hf : findOpt opts bskey with
    | none =>
      simp only [dedup_options_parse, hf, Except.ok.injEq] at hr
      obtain ⟨a, b, hab⟩ := unknownWarn_names_key opts kv hkv
      refine ⟨msgDefaultBlocksize ++ a, b, ?_⟩
      rw [← hr]
      simp [hab, List.append_assoc]
    | some v =>
      cases hsz : size_to_uint64 v.data with
      | none => simp [dedup_options_parse, hf, hsz] at hr
      | some bs =>
        simp only [dedup_options_parse, hf, hsz, Except.ok.injEq] at hr
        have hmem : kv ∈ opts.filter (fun p => p.1 ≠ bskey) := by
          rw [List.mem_filter]
          exact ⟨hkv, by simpa using hne⟩
        obtain ⟨a, b, hab⟩ := unknownWarn_names_key _ kv hmem
        refine ⟨a, b, ?_⟩
        rw [← hr]
        exact hab

/-- Witness for C9: the default case at the map with the single unknown
key foo, the malformed case at blocksize 64q, and the unknown key foo
being named in the warning. -/
theorem dedup_options_parse_spec_witness :
    (findOpt [("foo", "bar")] bskey = none ∧
     (∃ r, dedup_options_parse [("foo", "bar")] = Except.ok r ∧
       r.blocksize = 4096 ∧ ∃ t, r.warnings = msgDefaultBlocksize ++ t)) ∧
    (findOpt [("blocksize", "64q")] bskey = some "64q" ∧
     size_to_uint64 ("64q").data = none ∧
     dedup_options_parse [("blocksize", "64q")]
       = Except.error (msgBadBlockSize ++ ("64q").data)) ∧
    (dedup_options_parse [("foo", "bar")] = Except.ok optsFoo ∧
     ("foo", "bar") ∈ [("foo", "bar")] ∧ ("foo", "bar").1 ≠ bskey ∧
     ∃ a b, optsFoo.warnings = a ++ (("foo", "bar").1.data ++ b)) :=
  ⟨⟨by decide, (dedup_options_parse_spec [("foo", "bar")]).1 (by decide)⟩,
   ⟨by decide, by decide,
    (dedup_options_parse_spec [("blocksize", "64q")]).2.1 "64q" (by decide)
      (by decide)⟩,
   ⟨by rfl, by decide, by decide,
    (dedup_options_parse_spec [("foo", "bar")]).2.2 optsFoo (by rfl)
      ("foo", "bar") (by decide) (by decide)⟩⟩

/- ===================================================================
   Helper lemmas for the consolidator claims (C1, C6).
   =================================================================== -/

theorem filter_map_jobid (cat : List JobRow) (l : List Nat) :
    (cat.filter (fun r => r.JobId ∈ l)).map (fun r => r.JobId)
      = (cat.map (fun r => r.JobId)).filter (fun j => j ∈ l) := by
  induction cat with
  | nil => rfl
  | cons r t ih =>
    by_cases h : r.JobId ∈ l
    · simp [List.filter_cons, h, ih]
    · simp [List.filter_cons, h, ih]

theorem filter_mem_length (ids l : List Nat) (hids : ids.Nodup) (hl : l.Nodup)
    (hsub : ∀ j ∈ l, j ∈ ids) :
    (ids.filter (fun j => j ∈ l)).length = l.length := by
  have hnd : (ids.filter (fun j => decide (j ∈ l))).Nodup := hids.filter _
  have hperm : List.Perm (ids.filter (fun j => j ∈ l)) l := by
    rw [List.perm_ext_iff_of_nodup hnd hl]
    intro a
    simp only [List.mem_filter, decide_eq_true_eq]
    constructor
    · rintro ⟨_, h2⟩
      exact h2
    · intro h
      exact ⟨hsub a h, h⟩
  exact hperm.length_eq

theorem joblist_length_eq (cat : List JobRow) (l : List Nat)
    (hcat : (cat.map (fun r => r.JobId)).Nodup) (hl : l.Nodup)
    (hpres : ∀ j ∈ l, ∃ r ∈ cat, r.JobId = j) :
    ((cat.filter (fun r => r.JobId ∈ l)).map (fun r => r.JobId)).length
      = l.length := by
  rw [filter_map_jobid]
  apply filter_mem_length _ _ hcat hl
  intro j hj
  obtain ⟨r, hr, hrid⟩ := hpres j hj
  exact List.mem_map.mpr ⟨r, hr, hrid⟩

theorem purged_map_nil (cat : List JobRow) (l : List Nat)
    (hp : ∀ r ∈ cat, r.JobId ∈ l → r.PurgedFiles = 0) :
    ((cat.filter (fun r => r.JobId ∈ l)).filter
      (fun r => r.PurgedFiles ≠ 0)).map (fun r => r.JobId) = [] := by
  have hnil : (cat.filter (fun r => r.JobId ∈ l)).filter
      (fun r => r.PurgedFiles ≠ 0) = [] := by
    rw [List.filter_eq_nil_iff]
    intro r hr
    obtain ⟨h1, h2⟩ := List.mem_filter.mp hr
    simp only [decide_eq_true_eq] at h2
    simp [hp r h1 h2]
  rw [hnil]
  rfl

theorem getJobRecord_updateRow (cat : List JobRow) (id : Nat)
    (f : JobRow → JobRow) (hf : ∀ r, (f r).JobId = r.JobId) :
    getJobRecord (updateRow cat id f) id = (getJobRecord cat id).map f := by
  induction cat with
  | nil => rfl
  | cons r t ih =>
    by_cases h : r.JobId = id
    · simp [updateRow, getJobRecord, List.find?_cons, h, hf r]
    · simpa [updateRow, getJobRecord, List.find?_cons, h] using ih

theorem getJobRecord_double_update (cat : List JobRow) (id : Nat)
    (f g : JobRow → JobRow) (hf : ∀ r, (f r).JobId = r.JobId)
    (hg : ∀ r, (g r).JobId = r.JobId) (r0 : JobRow)
    (h : getJobRecord cat id = some r0) :
    getJobRecord (updateRow (updateRow cat id f) id g) id = some (g (f r0)) := by
  rw [getJobRecord_updateRow _ _ _ hg, getJobRecord_updateRow _ _ _ hf, h]
  rfl

theorem find?_filter_of_imp (cat : List JobRow) (p q : JobRow → Bool)
    (h : ∀ r, p r = true → q r = true) :
    (cat.filter q).find? p = cat.find? p := by
  induction cat with
  | nil => rfl
  | cons r t ih =>
    by_cases hp : p r
    · have hq := h r hp
      simp [List.filter_cons, hq, List.find?_cons, hp]
    · by_cases hq : q r
      · simp [List.filter_cons, hq, List.find?_cons, hp, ih]
      · simp [List.filter_cons, hq, List.find?_cons, hp, ih]

theorem cleanup_sets_level_and_times (env : Env) (jcr : JCR)
    (TermCode : JStatus) (JobLevel : Nat) (cat : List JobRow)
    (hst : jcr.JobStatus = JStatus.Terminated ∨ jcr.JobStatus = JStatus.Warnings)
    (hid : jcr.jr.JobId = jcr.JobId)
    (r0 : JobRow) (hex : getJobRecord cat jcr.JobId = some r0) :
    ∃ r, getJobRecord (NativeVbackupCleanup env jcr TermCode JobLevel cat).2.1
        jcr.JobId = some r ∧
      r.JobLevel = JobLevel ∧
      r.StartTime = jcr.previous_jr.StartTime ∧
      r.EndTime = jcr.previous_jr.EndTime ∧
      r.JobTDate = jcr.previous_jr.JobTDate ∧
      (NativeVbackupCleanup env jcr TermCode JobLevel cat).1.jr.JobLevel
        = JobLevel ∧
      (NativeVbackupCleanup env jcr TermCode JobLevel cat).1.JobId
        = jcr.JobId := by
  have hcond : (jcr.JobStatus = JStatus.Terminated
      ∨ jcr.JobStatus = JStatus.Warnings) = True := eq_true hst
  simp only [NativeVbackupCleanup, UpdateJobEnd, hcond, if_true]
  rw [hid]
  rw [getJobRecord_double_update cat jcr.JobId
    (fun r =>
      { JobId := r.JobId, JobLevel := JobLevel, PurgedFiles := r.PurgedFiles,
        StartTime := jcr.jr.StartTime, EndTime := env.now_end,
        JobTDate := jcr.jr.JobTDate })
    (fun r =>
      { JobId := r.JobId, JobLevel := r.JobLevel, PurgedFiles := r.PurgedFiles,
        StartTime := jcr.previous_jr.StartTime,
        EndTime := jcr.previous_jr.EndTime,
        JobTDate := jcr.previous_jr.JobTDate })
    (fun r => rfl) (fun r => rfl) r0 hex]
  exact ⟨_, rfl, rfl, rfl, rfl, rfl, rfl, rfl⟩

/-- C1: when the storage worker terminates with status JS_Terminated, the
run phase invokes cleanup, which sets the synthetic job level to the level
of the first JobId of the consolidation chain and then updates the
synthetic job's catalog row so that its StartTime, EndTime and JobTDate
equal those of the last JobId of the chain (previous_jr).  The final
conjunct states the cleanup property by itself for any job status in
Terminated or Warnings (cleanup is also reachable from the surrounding
job machinery with JS_Warnings): the level argument is written to the job
and its row, and the row times become those of previous_jr. -/
theorem vbackup_sets_level_and_times (env : Env) (jcr : JCR)
    (cat : List JobRow) (l : List Nat) (fr pr r0 : JobRow)
    (hrs : env.has_read_storage = true) (hws : env.has_write_storage = true)
    (hv : jcr.vf_jobids = some l) (hl : l ≠ [])
    (hcat : (cat.map (fun r => r.JobId)).Nodup) (hln : l.Nodup)
    (hpres : ∀ j ∈ l, ∃ r ∈ cat, r.JobId = j)
    (hpurged : ∀ r ∈ cat, r.JobId ∈ l → r.PurgedFiles = 0)
    (hfr : getJobRecord cat (l.head hl) = some fr)
    (hpr : getJobRecord cat (l.getLast hl) = some pr)
    (hbs : env.bootstrap_ok = true) (hco : env.connect_ok = true)
    (hsd : env.start_sd_ok = true) (hup : env.update_start_ok = true)
    (hfs : env.fsend_ok = true) (hmt : env.msg_thread_ok = true)
    (hterm : env.sd_status = JStatus.Terminated)
    (hid : jcr.jr.JobId = jcr.JobId) (hnotin : jcr.JobId ∉ l)
    (hex : getJobRecord cat jcr.JobId = some r0) :
    (DoNativeVbackup env jcr cat).1 = true ∧
    (∃ rfin, getJobRecord (DoNativeVbackup env jcr cat).2.2.1 jcr.JobId
        = some rfin ∧
      rfin.JobLevel = fr.JobLevel ∧
      rfin.StartTime = pr.StartTime ∧
      rfin.EndTime = pr.EndTime ∧
      rfin.JobTDate = pr.JobTDate) ∧
    (DoNativeVbackup env jcr cat).2.1.jr.JobLevel = fr.JobLevel ∧
    (∀ env2 jcr2 TermCode JobLevel cat2 r2,
      (jcr2.JobStatus = JStatus.Terminated ∨ jcr2.JobStatus = JStatus.Warnings) →
      jcr2.jr.JobId = jcr2.JobId →
      getJobRecord cat2 jcr2.JobId = some r2 →
      ∃ r, getJobRecord
          (NativeVbackupCleanup env2 jcr2 TermCode JobLevel cat2).2.1
          jcr2.JobId = some r ∧
        r.JobLevel = JobLevel ∧
        r.StartTime = jcr2.previous_jr.StartTime ∧
        r.EndTime = jcr2.previous_jr.EndTime ∧
        r.JobTDate = jcr2.previous_jr.JobTDate ∧
        (NativeVbackupCleanup env2 jcr2 TermCode JobLevel cat2).1.jr.JobLevel
          = JobLevel ∧
        (NativeVbackupCleanup env2 jcr2 TermCode JobLevel cat2).1.JobId
          = jcr2.JobId) := by
  have hcount := joblist_length_eq cat l hcat hln hpres
  have hpn := purged_map_nil cat l hpurged
  simp only [DoNativeVbackup, hrs, hws, hbs, hco, hsd, hup, hfs, hmt, hterm,
    Bool.true_eq_false, if_false, hv, Option.getD_some, dif_neg hl]
  rw [hcount]
  rw [if_neg (fun hc => hc rfl)]
  rw [hpn]
  rw [if_neg (fun hc => hc rfl)]
  rw [hfr, hpr]
  dsimp only
  rw [if_neg (fun hc => hc rfl)]
  rw [hid]
  set catX := updateRow cat jcr.JobId (fun r =>
    { JobId := r.JobId, JobLevel := r.JobLevel, PurgedFiles := r.PurgedFiles,
      StartTime := env.now, EndTime := r.EndTime, JobTDate := env.now })
    with hcatX
  set jcrX : JCR :=
    { JobId := jcr.JobId, accurate := jcr.accurate, vf_jobids := some l,
      JobStatus := JStatus.Terminated, JobErrors := jcr.JobErrors,
      JobFiles := jcr.JobFiles, JobBytes := jcr.JobBytes,
      jr := { JobId := jcr.JobId, JobLevel := jcr.jr.JobLevel,
              PurgedFiles := jcr.jr.PurgedFiles, StartTime := env.now,
              EndTime := jcr.jr.EndTime, JobTDate := env.now },
      previous_jr := pr, AlwaysIncremental := jcr.AlwaysIncremental,
      AlwaysIncrementalJobRetention := jcr.AlwaysIncrementalJobRetention }
    with hjcrX
  have hexX : getJobRecord catX jcrX.JobId = some
      { JobId := r0.JobId, JobLevel := r0.JobLevel,
        PurgedFiles := r0.PurgedFiles, StartTime := env.now,
        EndTime := r0.EndTime, JobTDate := env.now } := by
    rw [hcatX]
    show getJobRecord (updateRow cat jcr.JobId _) jcr.JobId = _
    rw [getJobRecord_updateRow cat jcr.JobId (fun r =>
      { JobId := r.JobId, JobLevel := r.JobLevel, PurgedFiles := r.PurgedFiles,
        StartTime := env.now, EndTime := r.EndTime, JobTDate := env.now })
      (fun r => rfl), hex]
    rfl
  obtain ⟨rfin, hrEq, hLvl, hS, hE, hT, hjrLvl, hJid⟩ :=
    cleanup_sets_level_and_times env jcrX JStatus.Terminated fr.JobLevel catX
      (Or.inl rfl) rfl _ hexX
  by_cases hai : (NativeVbackupCleanup env jcrX JStatus.Terminated
        fr.JobLevel catX).1.AlwaysIncremental = true ∧
      (NativeVbackupCleanup env jcrX JStatus.Terminated
        fr.JobLevel catX).1.AlwaysIncrementalJobRetention = true
  · rw [if_pos hai]
    refine ⟨rfl, ⟨rfin, ?_, hLvl, hS, hE, hT⟩, hjrLvl,
      fun env2 jcr2 TermCode JobLevel cat2 r2 hst2 hid2 hex2 =>
        cleanup_sets_level_and_times env2 jcr2 TermCode JobLevel cat2
          hst2 hid2 r2 hex2⟩
    show ((NativeVbackupCleanup env jcrX JStatus.Terminated fr.JobLevel
      catX).2.1.filter (fun r => r.JobId ∉ l)).find?
        (fun r => r.JobId = jcr.JobId) = some rfin
    rw [find?_filter_of_imp _ _ _ (fun r hr2 => by
      simp only [decide_eq_true_eq] at hr2 ⊢
      rw [hr2]
      exact hnotin)]
    exact hrEq
  · rw [if_neg hai]
    exact ⟨rfl, ⟨rfin, hrEq, hLvl, hS, hE, hT⟩, hjrLvl,
      fun env2 jcr2 TermCode JobLevel cat2 r2 hst2 hid2 hex2 =>
        cleanup_sets_level_and_times env2 jcr2 TermCode JobLevel cat2
          hst2 hid2 r2 hex2⟩

/-- Witness for C1: consolidating the chain 100, 101, 102 into job 200
with a healthy catalog and a worker that terminates cleanly; the final
job row carries level 2 (job 100) and the times of job 102. -/
theorem vbackup_sets_level_and_times_witness :
    jcrA.vf_jobids = some [100, 101, 102] ∧
    envOK.sd_status = JStatus.Terminated ∧
    ((DoNativeVbackup envOK jcrA catA).1 = true ∧
     (∃ rfin, getJobRecord (DoNativeVbackup envOK jcrA catA).2.2.1 jcrA.JobId
         = some rfin ∧
       rfin.JobLevel = (rowJ 100 2 0 10 11 12).JobLevel ∧
       rfin.StartTime = (rowJ 102 4 0 30 31 32).StartTime ∧
       rfin.EndTime = (rowJ 102 4 0 30 31 32).EndTime ∧
       rfin.JobTDate = (rowJ 102 4 0 30 31 32).JobTDate) ∧
     (DoNativeVbackup envOK jcrA catA).2.1.jr.JobLevel
       = (rowJ 100 2 0 10 11 12).JobLevel ∧
     (∀ env2 jcr2 TermCode JobLevel cat2 r2,
       (jcr2.JobStatus = JStatus.Terminated
         ∨ jcr2.JobStatus = JStatus.Warnings) →
       jcr2.jr.JobId = jcr2.JobId →
       getJobRecord cat2 jcr2.JobId = some r2 →
       ∃ r, getJobRecord
           (NativeVbackupCleanup env2 jcr2 TermCode JobLevel cat2).2.1
           jcr2.JobId = some r ∧
         r.JobLevel = JobLevel ∧
         r.StartTime = jcr2.previous_jr.StartTime ∧
         r.EndTime = jcr2.previous_jr.EndTime ∧
         r.JobTDate = jcr2.previous_jr.JobTDate ∧
         (NativeVbackupCleanup env2 jcr2 TermCode JobLevel cat2).1.jr.JobLevel
           = JobLevel ∧
         (NativeVbackupCleanup env2 jcr2 TermCode JobLevel cat2).1.JobId
           = jcr2.JobId)) :=
  ⟨by decide, by decide,
   vbackup_sets_level_and_times envOK jcrA catA [100, 101, 102]
     (rowJ 100 2 0 10 11 12) (rowJ 102 4 0 30 31 32) (rowJ 200 5 0 40 41 42)
     (by decide) (by decide) (by decide) (by decide) (by decide) (by decide)
     (by decide) (by decide) (by decide) (by decide) (by decide) (by decide)
     (by decide) (by decide) (by decide) (by decide) (by decide) (by decide)
     (by decide) (by decide)⟩

/-- C6 corrected: if every JobId of the consolidation list is present in
the catalog and some listed job has a non-zero PurgedFiles value, the run
phase fails, emits an error naming each such JobId, and never attempts a
storage-worker connection.  (Without the presence condition the run still
fails without a connection attempt, but on the missing-jobs check, naming
no purged job.) -/
theorem vbackup_purged_files_rejected (env : Env) (jcr : JCR)
    (cat : List JobRow) (l : List Nat)
    (hrs : env.has_read_storage = true) (hws : env.has_write_storage = true)
    (hv : jcr.vf_jobids = some l)
    (hcat : (cat.map (fun r => r.JobId)).Nodup) (hln : l.Nodup)
    (hpres : ∀ j ∈ l, ∃ r ∈ cat, r.JobId = j)
    (j0 : Nat) (r1 : JobRow) (hj0 : j0 ∈ l) (hr1 : r1 ∈ cat)
    (hr1id : r1.JobId = j0) (hr1p : r1.PurgedFiles ≠ 0) :
    (DoNativeVbackup env jcr cat).1 = false ∧
    (∀ j r, j ∈ l → r ∈ cat → r.JobId = j → r.PurgedFiles ≠ 0 →
      Event.err_purged_files j ∈ (DoNativeVbackup env jcr cat).2.2.2) ∧
    Event.sd_connect_attempt ∉ (DoNativeVbackup env jcr cat).2.2.2 := by
  have hl : l ≠ [] := List.ne_nil_of_mem hj0
  have hcount := joblist_length_eq cat l hcat hln hpres
  have hne : ((cat.filter (fun r => r.JobId ∈ l)).filter
      (fun r => r.PurgedFiles ≠ 0)).map (fun r => r.JobId) ≠ [] := by
    apply List.ne_nil_of_mem (a := r1.JobId)
    apply List.mem_map_of_mem
    exact List.mem_filter.mpr ⟨List.mem_filter.mpr ⟨hr1, by
      simp [hr1id, hj0]⟩, by simp [hr1p]⟩
  simp only [DoNativeVbackup, hrs, hws, Bool.true_eq_false, if_false, hv,
    Option.getD_some, dif_neg hl]
  rw [hcount]
  rw [if_neg (fun hc => hc rfl)]
  rw [if_pos hne]
  refine ⟨rfl, ?_, ?_⟩
  · intro j r hj hr hrid hrp
    show Event.err_purged_files j ∈ _ ++ _ ++ _
    refine List.mem_append.mpr (Or.inl (List.mem_append.mpr (Or.inr ?_)))
    apply List.mem_map.mpr
    refine ⟨j, ?_, rfl⟩
    apply List.mem_map.mpr
    refine ⟨r, ?_, hrid⟩
    exact List.mem_filter.mpr ⟨List.mem_filter.mpr ⟨hr, by
      simp [hrid, hj]⟩, by simp [hrp]⟩
  · show Event.sd_connect_attempt ∉ _ ++ _ ++ _
    intro hmem
    rcases List.mem_append.mp hmem with h1 | h1
    · rcases List.mem_append.mp h1 with h2 | h2
      · rcases List.mem_append.mp h2 with h3 | h3
        · simp at h3
        · by_cases hacc : jcr.accurate = true <;> simp [hacc] at h3
      · obtain ⟨r, _, habs⟩ := List.mem_map.mp h2
        exact absurd habs (by simp)
    · simp at h1

/-- Witness for the corrected C6: the chain 100, 101, 102 is fully
present in catP and job 101 has PurgedFiles 1; the run fails, names job
101 and never connects. -/
theorem vbackup_purged_files_rejected_witness :
    jcrA.vf_jobids = some [100, 101, 102] ∧
    (101 : Nat) ∈ [(100 : Nat), 101, 102] ∧
    rowJ 101 3 1 20 21 22 ∈ catP ∧
    ((DoNativeVbackup envOK jcrA catP).1 = false ∧
     (∀ j r, j ∈ [(100 : Nat), 101, 102] → r ∈ catP → r.JobId = j →
       r.PurgedFiles ≠ 0 →
       Event.err_purged_files j ∈ (DoNativeVbackup envOK jcrA catP).2.2.2) ∧
     Event.sd_connect_attempt ∉ (DoNativeVbackup envOK jcrA catP).2.2.2) :=
  ⟨by decide, by decide, by decide,
   vbackup_purged_files_rejected envOK jcrA catP [100, 101, 102]
     (by decide) (by decide) (by decide) (by decide) (by decide) (by decide)
     101 (rowJ 101 3 1 20 21 22) (by decide) (by decide) (by decide)
     (by decide)⟩

/-- Counterexample to C6 as stated: job 100 of the list 100, 101 has a
non-zero PurgedFiles value in the catalog, but because job 101 is missing
from the catalog the run fails on the missing-jobs check and never emits
a purged-files error naming job 100. -/
theorem vbackup_purged_not_named_counterexample :
    ((100 : Nat) ∈ [(100 : Nat), 101] ∧ rowJ 100 2 1 10 11 12 ∈ catC ∧
     (rowJ 100 2 1 10 11 12).PurgedFiles ≠ 0 ∧
     jcrC.vf_jobids = some [100, 101]) ∧
    (DoNativeVbackup envOK jcrC catC).1 = false ∧
    Event.err_purged_files 100 ∉ (DoNativeVbackup envOK jcrC catC).2.2.2 := by
  decide

end Bareos
